import Mathlib

/-!
Verification development for the sales-analytics dashboard `dsa_app.py`.

The Python source is shallowly embedded: the ledger is a list of
`SalesRecord`, dates count days since 1970-01-01 (pandas `dayofweek` with
Monday = 0 is then `(d + 3) % 7`, since 1970-01-01 was a Thursday), money is
`ℚ`, and numpy's global pseudo-random state is modelled by a `Nat` state
threaded explicitly through the generator, with `np.random.seed` replacing
the state by a function of the seed alone.
-/

/-- One row of the `tb_vendas` table (dsa_app.py, lines 49-59): date (days
since 1970-01-01), region, category, product, revenue and quantity. -/
structure SalesRecord where
  date : Nat
  regiao : String
  categoria : String
  produto : String
  faturamento : ℚ
  quantidade : Nat
  deriving DecidableEq

/-- The fixed region enumeration (dsa_app.py, line 79). -/
def regioes : List String :=
  ["Norte", "Nordeste", "Sul", "Sudeste", "Centro-Oeste"]

/-- The fixed category enumeration (dsa_app.py, line 80). -/
def categorias : List String :=
  ["Eletrônicos", "Roupas", "Alimentos", "Serviços"]

/-- The nested category → (product, base price) table `dict_produtos`
(dsa_app.py, lines 84-89). -/
def dict_produtos : List (String × List (String × ℚ)) :=
  [("Eletrônicos", [("Smartphone", 1200), ("Laptop", 3500), ("Tablet", 800)]),
   ("Roupas", [("Camiseta", 50), ("Terno", 150), ("Casaco", 300)]),
   ("Alimentos", [("Congelados", 40), ("Bebidas", 15), ("Limpeza", 25)]),
   ("Serviços", [("Consultoria", 1000), ("Instalação", 400), ("Suporte", 200)])]

/-- The product list registered under a category (`dict_produtos[c].keys()`). -/
def produtos_of (c : String) : List String :=
  ((dict_produtos.lookup c).getD []).map Prod.fst

/-- The base unit price of a product (`dict_produtos[c][p]`; product names are
distinct across categories, so a flat lookup is equivalent). -/
def preco_of (p : String) : ℚ :=
  (((dict_produtos.map Prod.snd).flatten).lookup p).getD 0

/-- One step of the global pseudo-random state.  numpy's Mersenne Twister is
modelled abstractly by a linear congruential step: the claims under
verification depend only on determinism and on the ranges of the draws, never
on the distribution.  Returns the raw draw together with the new state. -/
def rng_step (g : Nat) : Nat × Nat :=
  let g2 := (g * 1664525 + 1013904223) % 2 ^ 32
  (g2, g2)

/-- `np.random.seed(seed)` (dsa_app.py, line 70): the global state after
seeding is a function of the seed alone, regardless of the previous state. -/
def np_seed (seed : Nat) : Nat := seed % 2 ^ 32

/-- Round a rational to 2 decimal places (`round(x, 2)`, dsa_app.py line 129). -/
def round2 (q : ℚ) : ℚ := (round (q * 100) : ℚ) / 100

/-- The body of the inner sales loop (dsa_app.py, lines 101-129): draw region,
category, a product of that category, a quantity in `[1, 25)` and a noise
factor in `[-0.20, 0.20)`, and build one record whose revenue is
`round(max(0, preco_base * quantidade * (1 + noise)), 2)`. -/
def dsa_gen_venda (d : Nat) (g : Nat) : SalesRecord × Nat :=
  let s1 := rng_step g
  let r := regioes.getD (s1.1 % regioes.length) ""
  let s2 := rng_step s1.2
  let c := categorias.getD (s2.1 % categorias.length) ""
  let prods := (dict_produtos.lookup c).getD []
  let s3 := rng_step s2.2
  let pp := prods.getD (s3.1 % prods.length) ("", 0)
  let s4 := rng_step s3.2
  let quantidade := 1 + s4.1 % 24
  let base_faturamento := pp.2 * (quantidade : ℚ)
  let s5 := rng_step s4.2
  let noise : ℚ := -(1 / 5) + (2 / 5) * ((s5.1 % 1024 : Nat) : ℚ) / 1024
  let faturamento := base_faturamento * (1 + noise)
  (⟨d, r, c, pp.1, round2 (max 0 faturamento), quantidade⟩, s5.2)

/-- The inner loop `for _ in range(vendas_diarias)` (dsa_app.py, line 101):
emit `k` records for day `d`, threading the random state. -/
def dsa_gen_vendas_dia (d : Nat) : Nat → Nat → List SalesRecord × Nat
  | 0, g => ([], g)
  | k + 1, g =>
    let v := dsa_gen_venda d g
    let rest := dsa_gen_vendas_dia d k v.2
    (v.1 :: rest.1, rest.2)

/-- The outer loop `for d in datas` (dsa_app.py, lines 95-129): for each of
`n` consecutive days starting at day `d`, draw `vendas_diarias` in `[5, 15)`
and emit that many records. -/
def dsa_gen_dias : Nat → Nat → Nat → List SalesRecord × Nat
  | _, 0, g => ([], g)
  | d, n + 1, g =>
    let s := rng_step g
    let vendas_diarias := 5 + s.1 % 10
    let dia := dsa_gen_vendas_dia d vendas_diarias s.2
    let rest := dsa_gen_dias (d + 1) n dia.2
    (dia.1 ++ rest.1, rest.2)

/-- The full generation pass (dsa_app.py, lines 70-129): `np.random.seed(seed)`
followed by the day loop.  `g` is the global random state found before the
call; seeding discards it, which is what makes the pass reproducible. -/
def dsa_generate (seed start n : Nat) (g : Nat) : List SalesRecord :=
  let _ := g
  (dsa_gen_dias start n (np_seed seed)).1

/-- `date(2026, 1, 1)` (dsa_app.py, line 73) as days since 1970-01-01. -/
def start_date : Nat := 20454

/-- The rows inserted by the seeding pass: seed 42, 180 days from 2026-01-01
(dsa_app.py, lines 70-129). -/
def dsa_seed_rows : List SalesRecord := dsa_generate 42 start_date 180 0

/-- `dsa_init_db` (dsa_app.py, lines 64-140) restricted to its effect on the
row list of `tb_vendas`: count the rows, and if and only if the count is zero,
bulk-insert the generated rows. -/
def dsa_init_db (s : List SalesRecord) : List SalesRecord :=
  if s.length = 0 then s ++ dsa_seed_rows else s

/-- The filter selections of the sidebar (dsa_app.py, lines 250-277): a
resolved date interval and the three multiselect value lists. -/
structure FilterCriteria where
  start_d : Nat
  end_d : Nat
  selected_regioes : List String
  selected_categorias : List String
  selected_produtos : List String

/-- The conjunctive row predicate of the boolean indexing expression
(dsa_app.py, lines 283-289). -/
def dsa_filtro_pred (c : FilterCriteria) (r : SalesRecord) : Bool :=
  decide (c.start_d ≤ r.date) && decide (r.date ≤ c.end_d) &&
  decide (r.regiao ∈ c.selected_regioes) &&
  decide (r.categoria ∈ c.selected_categorias) &&
  decide (r.produto ∈ c.selected_produtos)

/-- The boolean-indexing filter `df[mask].copy()` (dsa_app.py, lines 280-290):
keep, in input order, exactly the rows satisfying all five clauses. -/
def dsa_filtra (df : List SalesRecord) (c : FilterCriteria) : List SalesRecord :=
  df.filter (dsa_filtro_pred c)

/-- `df["date"].min()` (dsa_app.py, line 245); `0` on an empty frame, which
the app never queries (the ledger is seeded before use). -/
def dsa_min_date : List SalesRecord → Nat
  | [] => 0
  | r :: rs => rs.foldl (fun m x => min m x.date) r.date

/-- `df["date"].max()` (dsa_app.py, line 246). -/
def dsa_max_date : List SalesRecord → Nat
  | [] => 0
  | r :: rs => rs.foldl (fun m x => max m x.date) r.date

/-- The date-range resolution (dsa_app.py, lines 273-277): the picker value is
used when it carries exactly two entries, otherwise the full `min`/`max` span
of the ledger is substituted. -/
def dsa_resolve_date_range (date_range : List Nat) (min_date max_date : Nat) :
    Nat × Nat :=
  if date_range.length = 2 then (date_range.getD 0 0, date_range.getD 1 0)
  else (min_date, max_date)

/-- The pandas object store: boolean indexing followed by `.copy()` allocates
a fresh, independent frame at the end of the store and leaves every existing
frame untouched.  `i` names the source frame. -/
def dsa_frames_step (frames : List (List SalesRecord)) (i : Nat)
    (c : FilterCriteria) : List (List SalesRecord) :=
  frames ++ [dsa_filtra (frames.getD i []) c]

/-- The three KPI values of `dsa_renderiza_cards_kpis` (dsa_app.py, lines
331-339): total revenue, total quantity, and average ticket guarded against
division by zero. -/
def dsa_kpis (df : List SalesRecord) : ℚ × ℚ × ℚ :=
  let total_faturamento := (df.map SalesRecord.faturamento).sum
  let total_qty : ℚ := (df.map (fun r => (r.quantidade : ℚ))).sum
  let avg_ticket := if total_qty > 0 then total_faturamento / total_qty else 0
  (total_faturamento, total_qty, avg_ticket)

/-- `dias_pt_map` (dsa_app.py, lines 736-739): weekday number (Monday = 0) to
Portuguese name. -/
def dias_pt_map : Nat → String
  | 0 => "Segunda-feira"
  | 1 => "Terça-feira"
  | 2 => "Quarta-feira"
  | 3 => "Quinta-feira"
  | 4 => "Sexta-feira"
  | 5 => "Sábado"
  | _ => "Domingo"

/-- `dias_pt_ordem` (dsa_app.py, lines 742-745): the fixed Monday-first
weekday ordering of the chart. -/
def dias_pt_ordem : List String :=
  ["Segunda-feira", "Terça-feira", "Quarta-feira",
   "Quinta-feira", "Sexta-feira", "Sábado", "Domingo"]

/-- `date.dt.dayofweek` with Monday = 0: 1970-01-01 was a Thursday (= 3). -/
def weekday_num (d : Nat) : Nat := (d + 3) % 7

/-- The `dia_semana` column (dsa_app.py, lines 749-752). -/
def dia_semana (r : SalesRecord) : String := dias_pt_map (weekday_num r.date)

/-- One bucket of `groupby("dia_semana")[["faturamento"]].mean()` after
`reindex` (dsa_app.py, line 755): the mean revenue of the records falling on
weekday `k`, or `none` (pandas `NaN`) when the bucket is empty. -/
def dsa_group_mean_faturamento (df : List SalesRecord) (k : String) : Option ℚ :=
  let grupo := df.filter (fun r => dia_semana r == k)
  if grupo.length = 0 then none
  else some ((grupo.map SalesRecord.faturamento).sum / (grupo.length : ℚ))

/-- The weekday chart input `wd_rev` (dsa_app.py, line 755): group means
reindexed over the fixed `dias_pt_ordem` sequence. -/
def dsa_wd_rev (df : List SalesRecord) : List (String × Option ℚ) :=
  dias_pt_ordem.map (fun d => (d, dsa_group_mean_faturamento df d))

/-- The ascending sort key of `sort_values("faturamento")`. -/
def fat_le (a b : SalesRecord) : Prop := a.faturamento ≤ b.faturamento

instance : DecidableRel fat_le :=
  fun a b => inferInstanceAs (Decidable (a.faturamento ≤ b.faturamento))

instance : IsTotal SalesRecord fat_le :=
  ⟨fun a b => le_total a.faturamento b.faturamento⟩

instance : IsTrans SalesRecord fat_le :=
  ⟨fun _ _ _ h1 h2 => le_trans h1 h2⟩

/-- `df.sort_values("faturamento", ascending=False)` (dsa_app.py, line 499)
with the default sort kind.  pandas computes an ascending argsort and reverses
it for `ascending=False`.  The default kind (introsort) guarantees no order
among records of equal revenue, so any faithful model must pick one admissible
realization; this one reverses a stable ascending insertion sort, which is the
behaviour the library concretely exhibits in its small-array insertion-sort
regime (in particular on the two-record counterexample input below).  Because
the tie order is the program's unspecified freedom, no theorem below asserts a
tie ordering for general inputs: only tie-independent consequences (which
records are selected and that revenues descend) are claimed, and those hold
for every admissible realization of the sort. -/
def dsa_sort_values_faturamento_desc (df : List SalesRecord) : List SalesRecord :=
  (List.insertionSort fat_le df).reverse

/-- `df_top` (dsa_app.py, line 499): the descending sort truncated to the
first 15 rows. -/
def dsa_df_top (df : List SalesRecord) : List SalesRecord :=
  (dsa_sort_values_faturamento_desc df).take 15

/-- `str(d).encode("latin-1", "replace").decode("latin-1")` (dsa_app.py, line
522): every code point above 255 becomes the placeholder glyph. -/
def latin1_replace (s : String) : String :=
  ⟨s.data.map (fun c => if c.toNat < 256 then c else '?')⟩

/-- The currency cell text `f"R$ {x:,.2f}"` (dsa_app.py, line 512), rendered
without thousands separators; both renderings consist of ASCII characters
only, which is all the encoding claim depends on. -/
def dsa_money_str (q : ℚ) : String :=
  let cents := round (q * 100)
  "R$ " ++ toString (cents / 100) ++ "." ++ toString (cents.natAbs % 100)

/-- The cell texts of one table row before transcoding (dsa_app.py, lines
506-513): date, region, category, product truncated to 20 characters,
quantity, formatted revenue.  The date and quantity renderings are ASCII
digit strings; the date is abbreviated to its day number. -/
def dsa_pdf_row_data (r : SalesRecord) : List String :=
  [toString r.date, r.regiao, r.categoria, r.produto.take 20,
   toString r.quantidade, dsa_money_str r.faturamento]

/-- The table body actually placed into the PDF (dsa_app.py, lines 499-527):
each row of `df_top`, each cell transcoded by the latin-1 replacement. -/
def dsa_pdf_safe_cells (df : List SalesRecord) : List (List String) :=
  (dsa_df_top df).map (fun r => (dsa_pdf_row_data r).map latin1_replace)

/-- Concrete record: a `Camiseta` sale with revenue 10. -/
def dsa_r0 : SalesRecord := ⟨20454, "Norte", "Roupas", "Camiseta", 10, 1⟩

/-- Concrete record: a `Terno` sale with the same revenue 10. -/
def dsa_r1 : SalesRecord := ⟨20454, "Sul", "Roupas", "Terno", 10, 1⟩

/-- Concrete record whose product name contains a non-Latin-1 character. -/
def dsa_r2 : SalesRecord := ⟨20454, "Norte", "Roupas", "Caf€", 10, 1⟩

/-- Concrete filter criteria used by witnesses. -/
def dsa_cW : FilterCriteria :=
  ⟨0, 99999, ["Norte"], ["Roupas"], ["Camiseta", "Terno"]⟩

/-- The first record produced by a one-day generation run. -/
def dsa_wit_rec : SalesRecord := (dsa_generate 0 0 1 0).headD dsa_r0

theorem dsa_getD_mod_mem {α : Type} (l : List α) (i : Nat) (d : α) (h : l ≠ []) :
    l.getD (i % l.length) d ∈ l := by
  have hlen : 0 < l.length := List.length_pos.mpr h
  have hi : i % l.length < l.length := Nat.mod_lt _ hlen
  rw [List.getD_eq_getElem?_getD, List.getElem?_eq_getElem hi]
  exact List.getElem_mem hi

theorem dsa_gen_vendas_dia_length (d : Nat) :
    ∀ k g, (dsa_gen_vendas_dia d k g).1.length = k := by
  intro k
  induction k with
  | zero => intro g; rfl
  | succ k ih =>
    intro g
    simp only [dsa_gen_vendas_dia, List.length_cons, ih]

theorem dsa_gen_dias_ne_nil (d n g : Nat) : (dsa_gen_dias d (n + 1) g).1 ≠ [] := by
  simp only [dsa_gen_dias]
  intro h
  rw [List.append_eq_nil] at h
  have h5 := dsa_gen_vendas_dia_length d (5 + (rng_step g).1 % 10) (rng_step g).2
  rw [h.1] at h5
  simp only [List.length_nil] at h5
  omega

theorem dsa_seed_rows_ne_nil : dsa_seed_rows ≠ [] :=
  dsa_gen_dias_ne_nil start_date 179 (np_seed 42)

/-- C5: seeding is idempotent.  The store is populated (the generated rows are
appended) exactly when the row count is zero at the time of the call, and a
second call after a successful first seed changes nothing, so in particular
the row count after the second call equals the row count after the first. -/
theorem dsa_C5_seeding_idempotent (s : List SalesRecord) :
    (s.length = 0 → dsa_init_db s = s ++ dsa_seed_rows)
    ∧ (s.length ≠ 0 → dsa_init_db s = s)
    ∧ dsa_init_db (dsa_init_db s) = dsa_init_db s
    ∧ (dsa_init_db (dsa_init_db s)).length = (dsa_init_db s).length := by
  have hrows : dsa_seed_rows.length ≠ 0 := by
    simpa [List.length_eq_zero] using dsa_seed_rows_ne_nil
  have hidem : dsa_init_db (dsa_init_db s) = dsa_init_db s := by
    by_cases h : s.length = 0
    · have h1 : dsa_init_db s = s ++ dsa_seed_rows := by rw [dsa_init_db, if_pos h]
      rw [h1, dsa_init_db,
        if_neg (by intro hc; rw [List.length_append] at hc; omega)]
    · have h1 : dsa_init_db s = s := by rw [dsa_init_db, if_neg h]
      rw [h1, dsa_init_db, if_neg h]
  exact ⟨fun h => by rw [dsa_init_db, if_pos h],
         fun h => by rw [dsa_init_db, if_neg h],
         hidem, by rw [hidem]⟩

/-- Witness for C5 at the empty store. -/
theorem dsa_C5_witness :
    dsa_init_db [] = [] ++ dsa_seed_rows
    ∧ (dsa_init_db (dsa_init_db [])).length = (dsa_init_db []).length :=
  ⟨(dsa_C5_seeding_idempotent []).1 rfl, (dsa_C5_seeding_idempotent []).2.2.2⟩

/-- C4: the generation pass is deterministic.  Seeding overwrites the global
random state, so two runs with the same seed, start day and day count agree
whatever the global state held before each run: same list, same length, same
record and same field values at every position. -/
theorem dsa_C4_generator_deterministic (seed start n g1 g2 : Nat) :
    dsa_generate seed start n g1 = dsa_generate seed start n g2
    ∧ (dsa_generate seed start n g1).length = (dsa_generate seed start n g2).length
    ∧ (∀ i : Nat, (dsa_generate seed start n g1)[i]? = (dsa_generate seed start n g2)[i]?)
    ∧ (dsa_generate seed start n g1).map SalesRecord.date
        = (dsa_generate seed start n g2).map SalesRecord.date
    ∧ (dsa_generate seed start n g1).map SalesRecord.regiao
        = (dsa_generate seed start n g2).map SalesRecord.regiao
    ∧ (dsa_generate seed start n g1).map SalesRecord.categoria
        = (dsa_generate seed start n g2).map SalesRecord.categoria
    ∧ (dsa_generate seed start n g1).map SalesRecord.produto
        = (dsa_generate seed start n g2).map SalesRecord.produto
    ∧ (dsa_generate seed start n g1).map SalesRecord.faturamento
        = (dsa_generate seed start n g2).map SalesRecord.faturamento
    ∧ (dsa_generate seed start n g1).map SalesRecord.quantidade
        = (dsa_generate seed start n g2).map SalesRecord.quantidade :=
  ⟨rfl, rfl, fun _ => rfl, rfl, rfl, rfl, rfl, rfl, rfl⟩

/-- C7: KPI aggregation.  The empty ledger yields the zero triple, and in
general the average ticket is total revenue over total quantity when the
total quantity is positive and zero otherwise; the division is guarded, so
no division fault can arise. -/
theorem dsa_C7_kpis_empty_and_guard :
    dsa_kpis [] = (0, 0, 0)
    ∧ ∀ df : List SalesRecord,
        ((dsa_kpis df).2.1 > 0 →
          (dsa_kpis df).2.2 = (dsa_kpis df).1 / (dsa_kpis df).2.1)
        ∧ (¬ (dsa_kpis df).2.1 > 0 → (dsa_kpis df).2.2 = 0) := by
  constructor
  · simp [dsa_kpis]
  · intro df
    constructor
    · intro h
      simp only [dsa_kpis] at h ⊢
      rw [if_pos h]
    · intro h
      simp only [dsa_kpis] at h ⊢
      rw [if_neg h]

/-- Witness for C7 at a one-record ledger with positive quantity. -/
theorem dsa_C7_witness :
    (dsa_kpis [dsa_r0]).2.2 = (dsa_kpis [dsa_r0]).1 / (dsa_kpis [dsa_r0]).2.1 := by
  have h : (dsa_kpis [dsa_r0]).2.1 > 0 := by norm_num [dsa_kpis, dsa_r0]
  exact (dsa_C7_kpis_empty_and_guard.2 [dsa_r0]).1 h

/-- C2: the filter is a conjunctive, order-preserving selection.  Its output
is a sublist (hence subsequence, in input order) of the input, every
surviving record satisfies all four clauses, and a record failing any one
clause is excluded. -/
theorem dsa_C2_filter_conjunctive (df : List SalesRecord) (c : FilterCriteria) :
    (dsa_filtra df c).Sublist df
    ∧ (∀ r ∈ dsa_filtra df c,
        c.start_d ≤ r.date ∧ r.date ≤ c.end_d
        ∧ r.regiao ∈ c.selected_regioes
        ∧ r.categoria ∈ c.selected_categorias
        ∧ r.produto ∈ c.selected_produtos)
    ∧ (∀ r : SalesRecord,
        (¬ c.start_d ≤ r.date ∨ ¬ r.date ≤ c.end_d
         ∨ r.regiao ∉ c.selected_regioes
         ∨ r.categoria ∉ c.selected_categorias
         ∨ r.produto ∉ c.selected_produtos) →
        r ∉ dsa_filtra df c) := by
  refine ⟨List.filter_sublist df, ?_, ?_⟩
  · intro r hr
    have hp := (List.mem_filter.mp hr).2
    simp only [dsa_filtro_pred, Bool.and_eq_true, decide_eq_true_eq] at hp
    exact ⟨hp.1.1.1.1, hp.1.1.1.2, hp.1.1.2, hp.1.2, hp.2⟩
  · intro r hbad hr
    have hp := (List.mem_filter.mp hr).2
    simp only [dsa_filtro_pred, Bool.and_eq_true, decide_eq_true_eq] at hp
    rcases hbad with h | h | h | h | h
    · exact h hp.1.1.1.1
    · exact h hp.1.1.1.2
    · exact h hp.1.1.2
    · exact h hp.1.2
    · exact h hp.2

/-- Witness for C2: with the concrete criteria `dsa_cW`, the surviving record
`dsa_r0` satisfies every clause and `dsa_r1` (whose region is not selected)
is excluded. -/
theorem dsa_C2_witness :
    (dsa_filtra [dsa_r0, dsa_r1] dsa_cW).Sublist [dsa_r0, dsa_r1]
    ∧ dsa_cW.start_d ≤ dsa_r0.date
    ∧ dsa_r1 ∉ dsa_filtra [dsa_r0, dsa_r1] dsa_cW :=
  ⟨(dsa_C2_filter_conjunctive [dsa_r0, dsa_r1] dsa_cW).1,
   ((dsa_C2_filter_conjunctive [dsa_r0, dsa_r1] dsa_cW).2.1 dsa_r0 (by decide)).1,
   (dsa_C2_filter_conjunctive [dsa_r0, dsa_r1] dsa_cW).2.2 dsa_r1 (by decide)⟩

theorem dsa_foldl_min_le (l : List SalesRecord) (a : Nat) :
    l.foldl (fun m x => min m x.date) a ≤ a
    ∧ ∀ x ∈ l, l.foldl (fun m x => min m x.date) a ≤ x.date := by
  induction l generalizing a with
  | nil => simp
  | cons y t ih =>
    refine ⟨?_, ?_⟩
    · exact le_trans (ih (min a y.date)).1 (min_le_left _ _)
    · intro x hx
      rcases List.mem_cons.mp hx with rfl | hx
      · exact le_trans (ih (min a x.date)).1 (min_le_right _ _)
      · exact (ih (min a y.date)).2 x hx

theorem dsa_foldl_le_max (l : List SalesRecord) (a : Nat) :
    a ≤ l.foldl (fun m x => max m x.date) a
    ∧ ∀ x ∈ l, x.date ≤ l.foldl (fun m x => max m x.date) a := by
  induction l generalizing a with
  | nil => simp
  | cons y t ih =>
    refine ⟨?_, ?_⟩
    · exact le_trans (le_max_left _ _) (ih (max a y.date)).1
    · intro x hx
      rcases List.mem_cons.mp hx with rfl | hx
      · exact le_trans (le_max_right _ _) (ih (max a x.date)).1
      · exact (ih (max a y.date)).2 x hx

theorem dsa_min_date_le (df : List SalesRecord) :
    ∀ r ∈ df, dsa_min_date df ≤ r.date := by
  intro r hr
  cases df with
  | nil => cases hr
  | cons y t =>
    rcases List.mem_cons.mp hr with rfl | hr
    · exact (dsa_foldl_min_le t r.date).1
    · exact (dsa_foldl_min_le t y.date).2 r hr

theorem dsa_le_max_date (df : List SalesRecord) :
    ∀ r ∈ df, r.date ≤ dsa_max_date df := by
  intro r hr
  cases df with
  | nil => cases hr
  | cons y t =>
    rcases List.mem_cons.mp hr with rfl | hr
    · exact (dsa_foldl_le_max t r.date).1
    · exact (dsa_foldl_le_max t y.date).2 r hr

/-- C8: when the picker does not deliver exactly a start and an end, the
resolved range is the full min/max span of the ledger, and with that range
the date clause excludes no record of the ledger. -/
theorem dsa_C8_date_range_fallback (dr : List Nat) (df : List SalesRecord)
    (hdr : dr.length ≠ 2) (_hdf : df ≠ []) :
    dsa_resolve_date_range dr (dsa_min_date df) (dsa_max_date df)
        = (dsa_min_date df, dsa_max_date df)
    ∧ ∀ r ∈ df, dsa_min_date df ≤ r.date ∧ r.date ≤ dsa_max_date df := by
  refine ⟨?_, fun r hr => ⟨dsa_min_date_le df r hr, dsa_le_max_date df r hr⟩⟩
  rw [dsa_resolve_date_range, if_neg hdr]

/-- Witness for C8: an empty picker value over a two-record ledger. -/
theorem dsa_C8_witness :
    dsa_resolve_date_range [] (dsa_min_date [dsa_r0, dsa_r1])
        (dsa_max_date [dsa_r0, dsa_r1])
      = (dsa_min_date [dsa_r0, dsa_r1], dsa_max_date [dsa_r0, dsa_r1])
    ∧ dsa_min_date [dsa_r0, dsa_r1] ≤ dsa_r0.date :=
  ⟨(dsa_C8_date_range_fallback [] [dsa_r0, dsa_r1] (by decide) (by decide)).1,
   ((dsa_C8_date_range_fallback [] [dsa_r0, dsa_r1] (by decide) (by decide)).2
      dsa_r0 (by decide)).1⟩

/-- C10: the filter never mutates its source.  In the frame store, the step
that materialises the filtered copy leaves every pre-existing frame (hence
the source ledger, its records, field values and order) unchanged and places
a fresh frame holding the filtered rows at a new index. -/
theorem dsa_C10_filter_never_mutates (frames : List (List SalesRecord))
    (i : Nat) (c : FilterCriteria) :
    (∀ j, j < frames.length →
      (dsa_frames_step frames i c).getD j [] = frames.getD j [])
    ∧ (dsa_frames_step frames i c).length = frames.length + 1
    ∧ (dsa_frames_step frames i c).getD frames.length []
        = dsa_filtra (frames.getD i []) c := by
  refine ⟨?_, by simp [dsa_frames_step], ?_⟩
  · intro j hj
    rw [dsa_frames_step, List.getD_eq_getElem?_getD, List.getElem?_append_left hj,
      List.getD_eq_getElem?_getD]
  · rw [dsa_frames_step, List.getD_eq_getElem?_getD,
      List.getElem?_append_right (le_refl _)]
    simp

/-- Witness for C10 on a one-frame store. -/
theorem dsa_C10_witness :
    (dsa_frames_step [[dsa_r0, dsa_r1]] 0 dsa_cW).getD 0 [] = [dsa_r0, dsa_r1]
    ∧ (dsa_frames_step [[dsa_r0, dsa_r1]] 0 dsa_cW).getD 1 []
        = dsa_filtra [dsa_r0, dsa_r1] dsa_cW :=
  ⟨(dsa_C10_filter_never_mutates [[dsa_r0, dsa_r1]] 0 dsa_cW).1 0 (by decide),
   (dsa_C10_filter_never_mutates [[dsa_r0, dsa_r1]] 0 dsa_cW).2.2⟩

/-- C3: the weekday aggregation always yields exactly 7 buckets, keyed in the
fixed Monday-first order for every input (so the order never depends on which
buckets appear, or in what order), carrying the mean revenue of each bucket
and an absent value (`none`, pandas `NaN`) for weekdays with no records. -/
theorem dsa_C3_weekday_grouping (df : List SalesRecord) :
    (dsa_wd_rev df).length = 7
    ∧ (dsa_wd_rev df).map Prod.fst = dias_pt_ordem
    ∧ (∀ d ∈ dias_pt_ordem, (d, dsa_group_mean_faturamento df d) ∈ dsa_wd_rev df)
    ∧ (∀ d : String, dsa_group_mean_faturamento df d = none ↔
        df.filter (fun r => dia_semana r == d) = [])
    ∧ (∀ d : String, ∀ g : List SalesRecord,
        df.filter (fun r => dia_semana r == d) = g → g ≠ [] →
        dsa_group_mean_faturamento df d =
          some ((g.map SalesRecord.faturamento).sum / (g.length : ℚ))) := by
  refine ⟨by simp [dsa_wd_rev, dias_pt_ordem], ?_, ?_, ?_, ?_⟩
  · rfl
  · intro d hd
    exact List.mem_map.mpr ⟨d, hd, rfl⟩
  · intro d
    rw [dsa_group_mean_faturamento]
    split
    · rename_i h
      simp only [true_iff]
      exact List.length_eq_zero.mp h
    · rename_i h
      simp only [false_iff, reduceCtorEq]
      intro hc
      exact h (by rw [hc]; rfl)
  · intro d g hg hne
    rw [dsa_group_mean_faturamento]
    simp only [hg]
    rw [if_neg (by simpa [List.length_eq_zero] using hne)]

/-- Witness for C3 on a one-record ledger whose date falls on a Thursday. -/
theorem dsa_C3_witness :
    (dsa_wd_rev [dsa_r0]).length = 7
    ∧ ("Quinta-feira", dsa_group_mean_faturamento [dsa_r0] "Quinta-feira")
        ∈ dsa_wd_rev [dsa_r0]
    ∧ (dsa_group_mean_faturamento [dsa_r0] "Domingo" = none ↔
        [dsa_r0].filter (fun r => dia_semana r == "Domingo") = []) :=
  ⟨(dsa_C3_weekday_grouping [dsa_r0]).1,
   (dsa_C3_weekday_grouping [dsa_r0]).2.2.1 "Quinta-feira" (by decide),
   (dsa_C3_weekday_grouping [dsa_r0]).2.2.2.1 "Domingo"⟩

/-- C9: latin-1 transcoding safety.  Every character of every cell placed
into the PDF table is a Latin-1 code point (so the single-byte encoder cannot
abort), and the transcoding is exactly the per-character replacement map:
supported characters pass through, unsupported ones become the placeholder
glyph.  The pipeline is a total function, so rendering always completes. -/
theorem dsa_C9_latin1_replacement (df : List SalesRecord) :
    (∀ row ∈ dsa_pdf_safe_cells df, ∀ cell ∈ row, ∀ ch ∈ cell.data, ch.toNat < 256)
    ∧ (∀ s : String, ∀ i : Nat,
        (latin1_replace s).data[i]? =
          (s.data[i]?).map (fun c => if c.toNat < 256 then c else '?')) := by
  constructor
  · intro row hrow cell hcell ch hch
    rcases List.mem_map.mp hrow with ⟨r, _, rfl⟩
    rcases List.mem_map.mp hcell with ⟨s, _, rfl⟩
    have hch2 : ch ∈ s.data.map (fun c => if c.toNat < 256 then c else '?') := hch
    rcases List.mem_map.mp hch2 with ⟨c, _, rfl⟩
    by_cases h : c.toNat < 256
    · rw [if_pos h]; exact h
    · rw [if_neg h]; decide
  · intro s i
    show (s.data.map (fun c => if c.toNat < 256 then c else '?'))[i]? = _
    rw [List.getElem?_map]

/-- Witness for C9: a product name containing the non-Latin-1 character `€`
comes out with the offending character replaced by the placeholder. -/
theorem dsa_C9_witness :
    (∀ ch ∈ (latin1_replace (dsa_r2.produto.take 20)).data, ch.toNat < 256)
    ∧ (latin1_replace "Caf€").data[3]? = some '?' := by
  constructor
  · intro ch hch
    have hrow : (dsa_pdf_row_data dsa_r2).map latin1_replace
        ∈ dsa_pdf_safe_cells [dsa_r2] := by
      rw [show dsa_pdf_safe_cells [dsa_r2]
            = [(dsa_pdf_row_data dsa_r2).map latin1_replace] from rfl]
      exact List.mem_singleton.mpr rfl
    have hcell : latin1_replace (dsa_r2.produto.take 20)
        ∈ (dsa_pdf_row_data dsa_r2).map latin1_replace := by
      rw [dsa_pdf_row_data]
      simp
    exact (dsa_C9_latin1_replacement [dsa_r2]).1 _ hrow _ hcell ch hch
  · rw [(dsa_C9_latin1_replacement []).2 "Caf€" 3]
    decide

theorem dsa_dict_facts :
    ∀ c ∈ categorias,
      ((dict_produtos.lookup c).getD [] ≠ []
       ∧ ∀ pr ∈ (dict_produtos.lookup c).getD [],
           pr.1 ∈ produtos_of c ∧ preco_of pr.1 = pr.2) := by
  decide

theorem dsa_round2_nonneg (q : ℚ) (h : 0 ≤ q) : 0 ≤ round2 q := by
  rw [round2]
  apply div_nonneg _ (by norm_num)
  have h2 : (0 : ℤ) ≤ round (q * 100) := by
    rw [round_eq]
    refine Int.le_floor.mpr ?_
    push_cast
    linarith
  exact_mod_cast h2

theorem dsa_venda_core (d n1 n2 n3 n4 n5 : Nat) :
    (let r := regioes.getD (n1 % regioes.length) ""
     let c := categorias.getD (n2 % categorias.length) ""
     let prods := (dict_produtos.lookup c).getD []
     let pp := prods.getD (n3 % prods.length) ("", 0)
     let quantidade := 1 + n4 % 24
     let noise : ℚ := -(1 / 5) + (2 / 5) * ((n5 % 1024 : Nat) : ℚ) / 1024
     let rec0 : SalesRecord :=
       ⟨d, r, c, pp.1, round2 (max 0 (pp.2 * (quantidade : ℚ) * (1 + noise))),
        quantidade⟩
     rec0.produto ∈ produtos_of rec0.categoria
     ∧ 1 ≤ rec0.quantidade ∧ rec0.quantidade < 25
     ∧ 0 ≤ rec0.faturamento
     ∧ ∃ noise2 : ℚ, -(1 / 5) ≤ noise2 ∧ noise2 < 1 / 5 ∧
         rec0.faturamento =
           round2 (max 0 ((rec0.quantidade : ℚ) * preco_of rec0.produto
             * (1 + noise2)))) := by
  dsimp only
  have hc : categorias.getD (n2 % categorias.length) "" ∈ categorias :=
    dsa_getD_mod_mem _ _ _ (by decide)
  set c := categorias.getD (n2 % categorias.length) "" with hcdef
  have hfacts := dsa_dict_facts c hc
  have hpp : ((dict_produtos.lookup c).getD []).getD
      (n3 % ((dict_produtos.lookup c).getD []).length) ("", 0)
      ∈ (dict_produtos.lookup c).getD [] :=
    dsa_getD_mod_mem _ _ _ hfacts.1
  obtain ⟨hp1, hp2⟩ := hfacts.2 _ hpp
  set pp := ((dict_produtos.lookup c).getD []).getD
      (n3 % ((dict_produtos.lookup c).getD []).length) ("", 0) with hppdef
  have hm : ((n5 % 1024 : Nat) : ℚ) < 1024 := by
    exact_mod_cast Nat.mod_lt n5 (by norm_num)
  have hm0 : (0 : ℚ) ≤ ((n5 % 1024 : Nat) : ℚ) := Nat.cast_nonneg _
  refine ⟨hp1, Nat.le_add_right 1 _, by omega, ?_, ?_⟩
  · exact dsa_round2_nonneg _ (le_max_left 0 _)
  · refine ⟨-(1 / 5) + (2 / 5) * ((n5 % 1024 : Nat) : ℚ) / 1024, ?_, ?_, ?_⟩
    · have hx : (0 : ℚ) ≤ (2 / 5) * ((n5 % 1024 : Nat) : ℚ) / 1024 := by
        positivity
      linarith
    · have hx : (2 / 5 : ℚ) * ((n5 % 1024 : Nat) : ℚ) / 1024
          = ((n5 % 1024 : Nat) : ℚ) * (1 / 2560) := by ring
      rw [hx]
      linarith
    · rw [hp2]
      congr 2
      ring

theorem dsa_gen_venda_spec (d g : Nat) :
    (dsa_gen_venda d g).1.produto ∈ produtos_of (dsa_gen_venda d g).1.categoria
    ∧ 1 ≤ (dsa_gen_venda d g).1.quantidade
    ∧ (dsa_gen_venda d g).1.quantidade < 25
    ∧ 0 ≤ (dsa_gen_venda d g).1.faturamento
    ∧ ∃ noise2 : ℚ, -(1 / 5) ≤ noise2 ∧ noise2 < 1 / 5 ∧
        (dsa_gen_venda d g).1.faturamento =
          round2 (max 0 (((dsa_gen_venda d g).1.quantidade : ℚ)
            * preco_of (dsa_gen_venda d g).1.produto * (1 + noise2))) :=
  dsa_venda_core d (rng_step g).1 (rng_step (rng_step g).2).1
    (rng_step (rng_step (rng_step g).2).2).1
    (rng_step (rng_step (rng_step (rng_step g).2).2).2).1
    (rng_step (rng_step (rng_step (rng_step (rng_step g).2).2).2).2).1

theorem dsa_mem_gen_vendas_dia {r : SalesRecord} (d : Nat) :
    ∀ k g, r ∈ (dsa_gen_vendas_dia d k g).1 → ∃ g2, r = (dsa_gen_venda d g2).1 := by
  intro k
  induction k with
  | zero => intro g h; cases h
  | succ k ih =>
    intro g h
    rcases List.mem_cons.mp h with h | h
    · exact ⟨g, h⟩
    · exact ih _ h

theorem dsa_mem_gen_dias {r : SalesRecord} :
    ∀ n d g, r ∈ (dsa_gen_dias d n g).1 → ∃ d2 g2, r = (dsa_gen_venda d2 g2).1 := by
  intro n
  induction n with
  | zero => intro d g h; cases h
  | succ n ih =>
    intro d g h
    rcases List.mem_append.mp h with h | h
    · obtain ⟨g2, hg⟩ := dsa_mem_gen_vendas_dia d _ _ h
      exact ⟨d, g2, hg⟩
    · exact ih _ _ h

/-- C6: generator domain invariant.  Every record of any generation run has a
product drawn from the product set of its category, an integer quantity in
`[1, 25)`, and a revenue equal to `round2 (max 0 (quantity * base_price *
(1 + noise)))` for some noise in `[-0.20, 0.20)`; in particular the revenue
is non-negative. -/
theorem dsa_C6_generator_invariant (seed start n g : Nat) :
    ∀ r ∈ dsa_generate seed start n g,
      r.produto ∈ produtos_of r.categoria
      ∧ 1 ≤ r.quantidade ∧ r.quantidade < 25
      ∧ 0 ≤ r.faturamento
      ∧ ∃ noise2 : ℚ, -(1 / 5) ≤ noise2 ∧ noise2 < 1 / 5 ∧
          r.faturamento = round2 (max 0 ((r.quantidade : ℚ)
            * preco_of r.produto * (1 + noise2))) := by
  intro r hr
  obtain ⟨d2, g2, rfl⟩ := dsa_mem_gen_dias n start (np_seed seed) hr
  exact dsa_gen_venda_spec d2 g2

/-- Witness for C6: the first record of a one-day run. -/
theorem dsa_C6_witness :
    dsa_wit_rec.produto ∈ produtos_of dsa_wit_rec.categoria
    ∧ 1 ≤ dsa_wit_rec.quantidade ∧ dsa_wit_rec.quantidade < 25
    ∧ 0 ≤ dsa_wit_rec.faturamento := by
  have hne : dsa_generate 0 0 1 0 ≠ [] := dsa_gen_dias_ne_nil 0 0 (np_seed 0)
  have hmem : dsa_wit_rec ∈ dsa_generate 0 0 1 0 := by
    rw [dsa_wit_rec]
    rcases hE : dsa_generate 0 0 1 0 with _ | ⟨a, t⟩
    · exact absurd hE hne
    · simp
  have h := dsa_C6_generator_invariant 0 0 1 0 dsa_wit_rec hmem
  exact ⟨h.1, h.2.1, h.2.2.1, h.2.2.2.1⟩

